import Mathlib

/-!
Shallow embedding of `src/00-live.py`, a multi-station radio stream
recorder.  Pure computations (the recording-window test, the next-start
computation, filename generation, the status report) are translated as
Lean functions; the effectful chunk recorder `record_chunk_ffmpeg` is
translated as a state-passing function over an abstract artifact state
(the file at the live path, modelled as `Option Nat` giving its size
when it exists) and the shared status dictionary (modelled as an
association list with Python-`dict` update semantics).
-/

namespace Live

/-! ## Configuration constants (source lines 17-24) -/

/-- `RECORD_DURATION = 15 * 60` (seconds per chunk). -/
def RECORD_DURATION : Nat := 15 * 60

/-- `OVERLAP_START = 14 * 60` (seconds between consecutive chunk launches). -/
def OVERLAP_START : Nat := 14 * 60

/-- `START_HOUR = 5`. -/
def START_HOUR : Nat := 5

/-- `END_HOUR = 0` (0 is treated as midnight / 24:00). -/
def END_HOUR : Nat := 0

/-! ## Time model

Timestamps are modelled at second granularity in the configured fixed
timezone (Asia/Manila has no DST, so calendar arithmetic is plain). -/

/-- A wall-clock timestamp at second granularity. -/
structure DateTime where
  year : Nat
  month : Nat
  day : Nat
  hour : Nat
  minute : Nat
  second : Nat
deriving DecidableEq, Repr

/-- Field ranges of a real timestamp (year bounded so that `%Y` prints
four digits, as it does for all dates this program can see). -/
def DateTime.Valid (t : DateTime) : Prop :=
  t.year < 10000 ∧ 1 ≤ t.month ∧ t.month ≤ 12 ∧ 1 ≤ t.day ∧ t.day ≤ 31 ∧
    t.hour < 24 ∧ t.minute < 60 ∧ t.second < 60

instance (t : DateTime) : Decidable t.Valid := by
  unfold DateTime.Valid; infer_instance

/-- Gregorian leap year. -/
def isLeap (y : Nat) : Bool := (y % 4 == 0 && y % 100 != 0) || (y % 400 == 0)

/-- Days in a month of the Gregorian calendar. -/
def daysInMonth (y m : Nat) : Nat :=
  if m = 2 then (if isLeap y then 29 else 28)
  else if m = 4 ∨ m = 6 ∨ m = 9 ∨ m = 11 then 30
  else 31

/-- Embedding of `now + timedelta(days=1)` at calendar-day granularity. -/
def addOneDay (t : DateTime) : DateTime :=
  if t.day < daysInMonth t.year t.month then { t with day := t.day + 1 }
  else if t.month < 12 then { t with month := t.month + 1, day := 1 }
  else { t with year := t.year + 1, month := 1, day := 1 }

/-! ## WindowGate (source lines 67-83) -/

/-- `within_recording_window(now)` (source line 67), parameterized by the
global configuration `START_HOUR`/`END_HOUR` it reads:
`(hour >= START_HOUR) and (hour < 24 if END_HOUR == 0 else hour < END_HOUR)`. -/
def within_recording_window (startHour endHour hour : Nat) : Bool :=
  decide (hour ≥ startHour) &&
    (if endHour = 0 then decide (hour < 24) else decide (hour < endHour))

/-- The suspension target computed inside `wait_until_start` (source lines
76-79): `now.replace(hour=START_HOUR, minute=0, second=0)` when
`now.hour < START_HOUR`, else the same on `now + timedelta(days=1)`. -/
def wait_next_start (startHour : Nat) (now : DateTime) : DateTime :=
  if now.hour < startHour then
    { now with hour := startHour, minute := 0, second := 0 }
  else
    { addOneDay now with hour := startHour, minute := 0, second := 0 }

/-- Modelled from the spec: `nextOpenTime(now)` — "if `now.hour() < startHour`,
returns today at `startHour:00:00`; otherwise returns `startHour:00:00` on the
following day" (§4.1). -/
def nextOpenTime (startHour : Nat) (now : DateTime) : DateTime :=
  if now.hour < startHour then
    ⟨now.year, now.month, now.day, startHour, 0, 0⟩
  else
    ⟨(addOneDay now).year, (addOneDay now).month, (addOneDay now).day,
      startHour, 0, 0⟩

/-! ## StatusBoard (source lines 28-29, 93-95)

`station_status` is a Python `dict`; we model it as an association list
with `dict` semantics: assignment to an existing key updates it in
place, a new key is appended; iteration order is list order. -/

/-- The status dictionary: station name to online flag, in insertion order. -/
abbrev StatusBoard := List (String × Bool)

/-- Python `station_status[name] = is_online` (`update_station_status`,
source lines 93-95): existing keys are updated in place, new keys appended. -/
def update_station_status (d : StatusBoard) (k : String) (v : Bool) :
    StatusBoard :=
  if (d : List (String × Bool)).any (fun p => p.1 == k) then
    (d : List (String × Bool)).map (fun p => if p.1 == k then (k, v) else p)
  else
    (d : List (String × Bool)) ++ [(k, v)]

/-- Dictionary lookup `station_status[name]` (`none` when the key is absent). -/
def dictGet (d : StatusBoard) (k : String) : Option Bool :=
  ((d : List (String × Bool)).find? (fun p => p.1 == k)).map (fun p => p.2)

/-- The dictionary's key list, in iteration order. -/
def dictKeys (d : StatusBoard) : List String :=
  (d : List (String × Bool)).map (fun p => p.1)

/-- The initial board built in `main` (source lines 178-180):
every loaded station is set to `False` before any thread starts. -/
def init_board (names : List String) : StatusBoard :=
  names.map (fun n => (n, false))

/-- A sequence of `update_station_status` calls applied in order. -/
def apply_updates (d : StatusBoard) (us : List (String × Bool)) : StatusBoard :=
  us.foldl (fun acc u => update_station_status acc u.1 u.2) d

/-! ## ChunkCapture (source lines 97-128)

After the (external) ffmpeg invocation returns, the artifact at
`live_path` is an `Option Nat`: `none` when no file exists, `some n`
when a file of size `n` exists.  `moveOk` models whether
`shutil.move` succeeds; the `try/except` around it makes the whole
function total (no exception escapes to the supervisor). -/

/-- The post-state of one `record_chunk_ffmpeg` call. -/
structure CaptureResult where
  /-- `True` = Online, `False` = Offline. -/
  outcome : Bool
  /-- The status dictionary after the call. -/
  board : StatusBoard
  /-- The artifact remaining at `live_path`. -/
  live : Option Nat
  /-- The artifact at `rec_path`. -/
  stored : Option Nat
  /-- Whether "Error moving file" was printed. -/
  moveErrorLogged : Bool
deriving Repr

/-- `record_chunk_ffmpeg` (source lines 97-128) after the subprocess has
finished: classify by `live_path.exists() and live_path.stat().st_size > 0`,
write the outcome into the status dict, then either move the artifact into
`REC_DIR` (logging a move failure without changing the outcome) or delete a
zero-length artifact. -/
def record_chunk_ffmpeg (station_name : String) (board : StatusBoard)
    (live rec : Option Nat) (moveOk : Bool) : CaptureResult :=
  match live with
  | some n =>
    if 0 < n then
      let board2 := update_station_status board station_name true
      if moveOk then
        ⟨true, board2, none, some n, false⟩
      else
        ⟨true, board2, some n, rec, true⟩
    else
      ⟨false, update_station_status board station_name false, none, rec, false⟩
  | none =>
      ⟨false, update_station_status board station_name false, none, rec, false⟩

/-! ## Filename generation (source lines 85-91) -/

/-- The decimal digit character for `n < 10`. -/
def digitChar (n : Nat) : Char := Char.ofNat (48 + n)

/-- The `w` low decimal digits of `n`, least significant first. -/
def natDigitsLE : Nat → Nat → List Char
  | 0, _ => []
  | w + 1, n => digitChar (n % 10) :: natDigitsLE w (n / 10)

/-- `n` printed zero-padded to width `w` (the `strftime` numeric fields:
`%Y` width 4, `%m %d %H %M %S` width 2). -/
def padNum (w n : Nat) : String := ⟨(natDigitsLE w n).reverse⟩

/-- The characters `<>:"/\|?*` replaced in station names. -/
def forbiddenChars : List Char := ['<', '>', ':', '\"', '/', '\\', '|', '?', '*']

/-- `"".join(c if c not in r'<>:"/\|?*' else "_" for c in station_name)`
(source line 89). -/
def sanitize (s : String) : String :=
  ⟨s.data.map (fun c => if c ∈ forbiddenChars then '_' else c)⟩

/-- `now.strftime("%Y-%m-%d")`. -/
def date_str (t : DateTime) : String :=
  padNum 4 t.year ++ "-" ++ padNum 2 t.month ++ "-" ++ padNum 2 t.day

/-- `now.strftime("%H-%M-%S")`. -/
def time_str (t : DateTime) : String :=
  padNum 2 t.hour ++ "-" ++ padNum 2 t.minute ++ "-" ++ padNum 2 t.second

/-- `generate_filename(station_name)` (source lines 85-91) with the
`datetime.now` call made explicit:
`f"[{date_str}]-[{time_str}]-{safe_name}.mp3"`. -/
def generate_filename (station_name : String) (now : DateTime) : String :=
  "[" ++ date_str now ++ "]-[" ++ time_str now ++ "]-" ++
    sanitize station_name ++ ".mp3"

/-! ## Chunk scheduling (source lines 134-146) -/

/-- Launch time of the `k`-th chunk of one station: the supervisor sleeps
`overlapStart` between launches (`time.sleep(OVERLAP_START)`, line 146). -/
def chunk_start (overlapStart t0 k : Nat) : Nat := t0 + k * overlapStart

/-- The active interval of the `k`-th chunk: it captures for
`duration` seconds from its launch. -/
def chunk_interval (duration overlapStart t0 k : Nat) : Finset Nat :=
  Finset.Ico (chunk_start overlapStart t0 k)
    (chunk_start overlapStart t0 k + duration)

/-! ## Reporter (source lines 148-165) -/

/-- The lines printed by `print_status_report` on a snapshot of the
status dict (source lines 148-165). -/
def print_status_report (d : StatusBoard) : List String :=
  let total := (d : List (String × Bool)).length
  let online_names :=
    ((d : List (String × Bool)).filter (fun p => p.2)).map (fun p => p.1)
  let offline_names :=
    ((d : List (String × Bool)).filter (fun p => !p.2)).map (fun p => p.1)
  ["===",
   "Online Radios: " ++ toString online_names.length ++ "/" ++ toString total]
  ++ online_names
  ++ ["",
   "Offline Radios: " ++ toString offline_names.length ++ "/" ++ toString total]
  ++ offline_names

/-! ## Helper lemmas on the status dictionary -/

theorem find?_map_update (k : String) (v : Bool) (d : List (String × Bool)) :
    (d.map (fun p => if p.1 == k then (k, v) else p)).find? (fun p => p.1 == k)
      = if d.any (fun p => p.1 == k) then some (k, v) else none := by
  induction d with
  | nil => rfl
  | cons p rest ih =>
    rw [List.map_cons]
    cases hb : (p.1 == k) with
    | true =>
      rw [if_pos rfl, List.find?_cons_of_pos _ (by simp), List.any_cons, hb,
        Bool.true_or, if_pos rfl]
    | false =>
      rw [if_neg (by simp), List.find?_cons_of_neg _ (by simp [hb]), ih,
        List.any_cons, hb, Bool.false_or]

theorem find?_map_update_ne (k k2 : String) (v : Bool) (h : k2 ≠ k)
    (d : List (String × Bool)) :
    (d.map (fun p => if p.1 == k then (k, v) else p)).find? (fun p => p.1 == k2)
      = d.find? (fun p => p.1 == k2) := by
  induction d with
  | nil => rfl
  | cons p rest ih =>
    rw [List.map_cons]
    cases hb : (p.1 == k) with
    | true =>
      have hp : p.1 = k := by simpa using hb
      rw [if_pos rfl,
        List.find?_cons_of_neg _ (by simp; exact fun hc => h hc.symm),
        List.find?_cons_of_neg _ (by simp [hp]; exact fun hc => h hc.symm),
        ih]
    | false =>
      rw [if_neg (by simp)]
      cases hc : (p.1 == k2) with
      | true =>
        rw [List.find?_cons_of_pos _ (by exact hc),
          List.find?_cons_of_pos _ (by exact hc)]
      | false =>
        rw [List.find?_cons_of_neg _ (by simp [hc]),
          List.find?_cons_of_neg _ (by simp [hc]), ih]

theorem dictGet_update_self (d : StatusBoard) (k : String) (v : Bool) :
    dictGet (update_station_status d k v) k = some v := by
  unfold dictGet update_station_status
  by_cases h : d.any (fun p => p.1 == k)
  · rw [if_pos h, find?_map_update, if_pos h]
    rfl
  · rw [if_neg h, List.find?_append]
    have hnone : d.find? (fun p => p.1 == k) = none := by
      rw [List.find?_eq_none]
      intro p hp hc
      exact h (List.any_eq_true.mpr ⟨p, hp, hc⟩)
    simp [hnone]

theorem dictGet_update_ne (d : StatusBoard) (k k2 : String) (v : Bool)
    (h : k2 ≠ k) :
    dictGet (update_station_status d k v) k2 = dictGet d k2 := by
  unfold dictGet update_station_status
  by_cases hany : d.any (fun p => p.1 == k)
  · rw [if_pos hany, find?_map_update_ne k k2 v h]
  · rw [if_neg hany, List.find?_append]
    have hk2 : ((k, v).1 == k2) = false := by
      simp
      exact Ne.symm h
    cases hfd : d.find? (fun p => p.1 == k2) <;> simp [hfd, hk2]

theorem dictKeys_update_of_mem (d : StatusBoard) (k : String) (v : Bool)
    (h : k ∈ dictKeys d) :
    dictKeys (update_station_status d k v) = dictKeys d := by
  have hany : d.any (fun p => p.1 == k) = true := by
    simp only [dictKeys, List.mem_map] at h
    obtain ⟨p, hp, hpk⟩ := h
    exact List.any_eq_true.mpr ⟨p, hp, by simp [hpk]⟩
  unfold update_station_status dictKeys
  rw [if_pos hany, List.map_map]
  apply List.map_congr_left
  intro p hp
  by_cases h2 : p.1 = k <;> simp [h2]

theorem dictKeys_init (names : List String) :
    dictKeys (init_board names) = names := by
  simp [dictKeys, init_board, List.map_map, Function.comp_def]

theorem dictKeys_apply_updates_aux (us : List (String × Bool)) :
    ∀ d : StatusBoard, (∀ u ∈ us, u.1 ∈ dictKeys d) →
      dictKeys (apply_updates d us) = dictKeys d := by
  induction us with
  | nil => intro d _; rfl
  | cons u rest ih =>
    intro d h
    have h1 : u.1 ∈ dictKeys d := h u (by simp)
    have hk := dictKeys_update_of_mem d u.1 u.2 h1
    show dictKeys (apply_updates (update_station_status d u.1 u.2) rest)
      = dictKeys d
    rw [ih _ ?_, hk]
    intro x hx
    rw [hk]
    exact h x (by simp [hx])

/-! ## Helper lemmas on padded numerals and filenames -/

theorem natDigitsLE_length (w : Nat) : ∀ n, (natDigitsLE w n).length = w := by
  induction w with
  | zero => intro n; rfl
  | succ w ih => intro n; simp [natDigitsLE, ih]

theorem digitChar_inj : ∀ a < 10, ∀ b < 10, digitChar a = digitChar b → a = b
  := by decide

theorem natDigitsLE_inj (w : Nat) :
    ∀ n m, n < 10 ^ w → m < 10 ^ w →
      natDigitsLE w n = natDigitsLE w m → n = m := by
  induction w with
  | zero =>
    intro n m hn hm _
    simp only [pow_zero, Nat.lt_one_iff] at hn hm
    omega
  | succ w ih =>
    intro n m hn hm h
    rw [pow_succ] at hn hm
    simp only [natDigitsLE, List.cons.injEq] at h
    have hd : n % 10 = m % 10 :=
      digitChar_inj (n % 10) (Nat.mod_lt _ (by norm_num)) (m % 10)
        (Nat.mod_lt _ (by norm_num)) h.1
    have hq : n / 10 = m / 10 := by
      apply ih
      · omega
      · omega
      · exact h.2
    omega

theorem pad_peel_num (w n m : Nat) (l1 l2 : List Char) (hn : n < 10 ^ w)
    (hm : m < 10 ^ w)
    (h : (natDigitsLE w n).reverse ++ l1 = (natDigitsLE w m).reverse ++ l2) :
    n = m ∧ l1 = l2 := by
  have hlen : (natDigitsLE w n).reverse.length
      = (natDigitsLE w m).reverse.length := by
    simp [natDigitsLE_length]
  obtain ⟨h1, h2⟩ := List.append_inj h hlen
  exact ⟨natDigitsLE_inj w n m hn hm (List.reverse_inj.mp h1), h2⟩

theorem generate_filename_data (name : String) (t : DateTime) :
    (generate_filename name t).data
      = '[' :: ((natDigitsLE 4 t.year).reverse
          ++ '-' :: ((natDigitsLE 2 t.month).reverse
          ++ '-' :: ((natDigitsLE 2 t.day).reverse
          ++ ']' :: '-' :: '[' :: ((natDigitsLE 2 t.hour).reverse
          ++ '-' :: ((natDigitsLE 2 t.minute).reverse
          ++ '-' :: ((natDigitsLE 2 t.second).reverse
          ++ ']' :: '-' :: ((sanitize name).data
          ++ ['.', 'm', 'p', '3']))))))) := by
  simp [generate_filename, date_str, time_str, padNum]

/-! ## Claim theorems -/

/-- C1: a completed `record_chunk_ffmpeg` call classifies Online exactly when
the artifact at the live path exists with size strictly greater than zero,
and the resulting status dictionary is the input dictionary with exactly that
boolean written under the station's name.  The classification is a function
of the artifact state alone (the arguments), so it cannot depend on any call
count. -/
theorem chunk_capture_classifies_by_artifact (station_name : String)
    (board : StatusBoard) (live stored : Option Nat) (moveOk : Bool) :
    ((record_chunk_ffmpeg station_name board live stored moveOk).outcome = true
        ↔ ∃ n, live = some n ∧ 0 < n)
    ∧ (record_chunk_ffmpeg station_name board live stored moveOk).board
        = update_station_status board station_name
            ((record_chunk_ffmpeg station_name board live stored moveOk).outcome)
    := by
  match live with
  | none => simp [record_chunk_ffmpeg]
  | some n =>
    by_cases hn : 0 < n
    · cases moveOk <;> simp [record_chunk_ffmpeg, hn]
    · simp [record_chunk_ffmpeg, hn]

/-- C2: `within_recording_window` returns true exactly when the hour lies in
`[startHour, 24)` for `endHour = 0` and in `[startHour, endHour)` otherwise;
it is a pure function of the wall-clock hour (its only non-configuration
argument). -/
theorem window_gate_iff (startHour endHour hour : Nat) :
    within_recording_window startHour endHour hour = true
      ↔ startHour ≤ hour ∧ hour < (if endHour = 0 then 24 else endHour) := by
  unfold within_recording_window
  by_cases he : endHour = 0 <;> simp [he]

/-- C4: when the capture leaves no artifact or a zero-length artifact at the
live path, the station's status entry is set to Offline (`false`) and no
artifact remains at the working location (a zero-length artifact is
deleted). -/
theorem chunk_capture_offline_cleanup (station_name : String)
    (board : StatusBoard) (live stored : Option Nat) (moveOk : Bool)
    (h : live = none ∨ live = some 0) :
    dictGet (record_chunk_ffmpeg station_name board live stored moveOk).board
        station_name = some false
    ∧ (record_chunk_ffmpeg station_name board live stored moveOk).live = none
    := by
  rcases h with h | h <;> subst h <;>
    simp [record_chunk_ffmpeg, dictGet_update_self]

/-- Witness for C4 at a zero-length artifact. -/
theorem chunk_capture_offline_cleanup_witness :
    ((some 0 : Option Nat) = none ∨ (some 0 : Option Nat) = some 0)
    ∧ (dictGet (record_chunk_ffmpeg "A" [("A", true)] (some 0) none true).board
          "A" = some false
       ∧ (record_chunk_ffmpeg "A" [("A", true)] (some 0) none true).live = none)
    :=
  ⟨Or.inr rfl,
    chunk_capture_offline_cleanup "A" [("A", true)] (some 0) none true
      (Or.inr rfl)⟩

/-- C5: when the artifact is non-empty but the move into permanent storage
fails, the failure is logged, the outcome stays Online, and the Online write
to the status dictionary stands.  `record_chunk_ffmpeg` is a total function
(the `try/except` around `shutil.move` means no exception escapes to the
supervisor), so no failure propagates out. -/
theorem chunk_capture_move_failure (station_name : String)
    (board : StatusBoard) (stored : Option Nat) (n : Nat) (hn : 0 < n) :
    (record_chunk_ffmpeg station_name board (some n) stored false).outcome
        = true
    ∧ dictGet (record_chunk_ffmpeg station_name board (some n) stored
          false).board station_name = some true
    ∧ (record_chunk_ffmpeg station_name board (some n) stored
          false).moveErrorLogged = true := by
  simp [record_chunk_ffmpeg, hn, dictGet_update_self]

/-- Witness for C5 at a 500000-byte artifact. -/
theorem chunk_capture_move_failure_witness :
    0 < 500000
    ∧ ((record_chunk_ffmpeg "A" [] (some 500000) none false).outcome = true
       ∧ dictGet (record_chunk_ffmpeg "A" [] (some 500000) none false).board
           "A" = some true
       ∧ (record_chunk_ffmpeg "A" [] (some 500000) none
           false).moveErrorLogged = true) :=
  ⟨by decide, chunk_capture_move_failure "A" [] none 500000 (by decide)⟩

/-- C6: with chunk duration `D` and launch spacing `S < D`, two consecutively
scheduled chunks of one station have active intervals overlapping in exactly
`D - S` seconds; the configured program satisfies the precondition
(`OVERLAP_START < RECORD_DURATION`). -/
theorem consecutive_chunks_overlap (D S t0 k : Nat) (h : S < D) :
    (chunk_interval D S t0 k ∩ chunk_interval D S t0 (k + 1)).card = D - S
    ∧ OVERLAP_START < RECORD_DURATION := by
  refine ⟨?_, by decide⟩
  unfold chunk_interval chunk_start
  rw [Finset.Ico_inter_Ico, Nat.card_Ico, Nat.succ_mul]
  set m := k * S with hm
  omega

/-- Witness for C6 at the configured durations. -/
theorem consecutive_chunks_overlap_witness :
    OVERLAP_START < RECORD_DURATION
    ∧ ((chunk_interval RECORD_DURATION OVERLAP_START 0 0 ∩
          chunk_interval RECORD_DURATION OVERLAP_START 0 1).card
        = RECORD_DURATION - OVERLAP_START
       ∧ OVERLAP_START < RECORD_DURATION) :=
  ⟨by decide,
    consecutive_chunks_overlap RECORD_DURATION OVERLAP_START 0 0 (by decide)⟩

/-- C3: outside the recording window, the suspension target computed by
`wait_until_start` agrees with the spec's `nextOpenTime`: today at
`startHour:00:00` when `now.hour < startHour`, else `startHour:00:00` on the
following day. -/
theorem next_open_time (startHour endHour : Nat) (now : DateTime)
    (h : within_recording_window startHour endHour now.hour = false) :
    wait_next_start startHour now = nextOpenTime startHour now
    ∧ (now.hour < startHour →
        wait_next_start startHour now
          = ⟨now.year, now.month, now.day, startHour, 0, 0⟩)
    ∧ (¬now.hour < startHour →
        wait_next_start startHour now
          = ⟨(addOneDay now).year, (addOneDay now).month, (addOneDay now).day,
              startHour, 0, 0⟩)
    ∧ within_recording_window 5 0 4 = false
    ∧ wait_next_start 5 ⟨2026, 3, 10, 4, 59, 59⟩ = ⟨2026, 3, 10, 5, 0, 0⟩
    ∧ within_recording_window 5 0 5 = true := by
  refine ⟨rfl, ?_, ?_, by decide, by decide, by decide⟩
  · intro hc
    simp [wait_next_start, hc]
  · intro hc
    simp [wait_next_start, hc]

/-- Witness for C3 at 02:30:00 (outside the window `[5, 24)`). -/
theorem next_open_time_witness :
    within_recording_window 5 0 2 = false
    ∧ wait_next_start 5 ⟨2026, 3, 10, 2, 30, 0⟩
        = nextOpenTime 5 ⟨2026, 3, 10, 2, 30, 0⟩ :=
  ⟨by decide, (next_open_time 5 0 ⟨2026, 3, 10, 2, 30, 0⟩ (by decide)).1⟩

/-- C8: the report is a separator line, the online header with
`count/total`, the online names, a blank line, the offline header, and the
offline names; the two name lists partition the snapshot's keys (they are a
permutation of the key list, and the counts add up to the total); on
`{A: true, B: false, C: true}` it prints `Online Radios: 2/3` with `A`, `C`,
then `Offline Radios: 1/3` with `B`. -/
theorem report_format (d : StatusBoard) :
    print_status_report d
      = ["===",
         "Online Radios: "
           ++ toString ((d.filter (fun p => p.2)).map (fun p => p.1)).length
           ++ "/" ++ toString d.length]
        ++ (d.filter (fun p => p.2)).map (fun p => p.1)
        ++ ["",
         "Offline Radios: "
           ++ toString ((d.filter (fun p => !p.2)).map (fun p => p.1)).length
           ++ "/" ++ toString d.length]
        ++ (d.filter (fun p => !p.2)).map (fun p => p.1)
    ∧ ((d.filter (fun p => p.2)).map (fun p => p.1)
        ++ (d.filter (fun p => !p.2)).map (fun p => p.1)).Perm (dictKeys d)
    ∧ ((d.filter (fun p => p.2)).map (fun p => p.1)).length
        + ((d.filter (fun p => !p.2)).map (fun p => p.1)).length = d.length
    ∧ print_status_report [("A", true), ("B", false), ("C", true)]
      = ["===", "Online Radios: 2/3", "A", "C", "",
         "Offline Radios: 1/3", "B"] := by
  have hperm := List.filter_append_perm (fun p : String × Bool => p.2) d
  refine ⟨rfl, ?_, ?_, by decide⟩
  · have hm := hperm.map (fun p : String × Bool => p.1)
    simpa [dictKeys, List.map_append] using hm
  · have hlen := hperm.length_eq
    simpa [List.length_append, List.length_map] using hlen

/-- C9: `update_station_status` for station `A` writes `A`'s entry and leaves
every other station's entry unchanged; starting from the board initialized in
`main` (every station Offline), any sequence of updates whose names are known
stations preserves the key set exactly. -/
theorem status_isolation_and_keys (names : List String)
    (us : List (String × Bool)) (d : StatusBoard) (A B : String) (v : Bool)
    (hBA : B ≠ A) (hus : ∀ u ∈ us, u.1 ∈ names) :
    dictGet (update_station_status d A v) B = dictGet d B
    ∧ dictGet (update_station_status d A v) A = some v
    ∧ dictKeys (apply_updates (init_board names) us) = names := by
  refine ⟨dictGet_update_ne d A B v hBA, dictGet_update_self d A v, ?_⟩
  rw [dictKeys_apply_updates_aux us _ ?_, dictKeys_init]
  intro u hu
  rw [dictKeys_init]
  exact hus u hu

/-- Witness for C9 with stations `A`, `B` and two updates. -/
theorem status_isolation_and_keys_witness :
    (("B" : String) ≠ "A" ∧ ∀ u ∈ [("A", true), ("B", false)],
      u.1 ∈ ["A", "B"])
    ∧ (dictGet (update_station_status [("A", false), ("B", false)] "A" true)
          "B" = dictGet [("A", false), ("B", false)] "B"
       ∧ dictGet (update_station_status [("A", false), ("B", false)] "A" true)
          "A" = some true
       ∧ dictKeys (apply_updates (init_board ["A", "B"])
            [("A", true), ("B", false)]) = ["A", "B"]) :=
  ⟨⟨by decide, by decide⟩,
    status_isolation_and_keys ["A", "B"] [("A", true), ("B", false)]
      [("A", false), ("B", false)] "A" "B" true (by decide) (by decide)⟩

/-- C7: the chunk filename is a deterministic function of
`(station.name, now)` (it is a function of exactly those arguments) whose
sanitization removes every character of `<>:"/\|?*`, and two chunks of the
same station generated at least one second apart — i.e. at distinct
second-granularity timestamps — get different filenames. -/
theorem filename_uniqueness (name : String) (t1 t2 : DateTime)
    (h1 : t1.Valid) (h2 : t2.Valid) (hne : t1 ≠ t2) :
    generate_filename name t1 ≠ generate_filename name t2
    ∧ ∀ c ∈ (sanitize name).data, c ∉ forbiddenChars := by
  constructor
  · intro h
    refine hne ?_
    have e2 : (10 : Nat) ^ 2 = 100 := by norm_num
    have e4 : (10 : Nat) ^ 4 = 10000 := by norm_num
    obtain ⟨v1a, v1b, v1c, v1d, v1e, v1f, v1g, v1h⟩ := h1
    obtain ⟨v2a, v2b, v2c, v2d, v2e, v2f, v2g, v2h⟩ := h2
    have hd := congrArg String.data h
    rw [generate_filename_data, generate_filename_data] at hd
    simp only [List.cons.injEq, true_and] at hd
    obtain ⟨hy, hd⟩ := pad_peel_num 4 _ _ _ _
      (by rw [e4]; exact v1a) (by rw [e4]; exact v2a) hd
    simp only [List.cons.injEq, true_and] at hd
    obtain ⟨hmo, hd⟩ := pad_peel_num 2 _ _ _ _
      (by rw [e2]; omega) (by rw [e2]; omega) hd
    simp only [List.cons.injEq, true_and] at hd
    obtain ⟨hdy, hd⟩ := pad_peel_num 2 _ _ _ _
      (by rw [e2]; omega) (by rw [e2]; omega) hd
    simp only [List.cons.injEq, true_and] at hd
    obtain ⟨hho, hd⟩ := pad_peel_num 2 _ _ _ _
      (by rw [e2]; omega) (by rw [e2]; omega) hd
    simp only [List.cons.injEq, true_and] at hd
    obtain ⟨hmi, hd⟩ := pad_peel_num 2 _ _ _ _
      (by rw [e2]; omega) (by rw [e2]; omega) hd
    simp only [List.cons.injEq, true_and] at hd
    obtain ⟨hse, -⟩ := pad_peel_num 2 _ _ _ _
      (by rw [e2]; omega) (by rw [e2]; omega) hd
    obtain ⟨y1, mo1, d1, hh1, mi1, s1⟩ := t1
    obtain ⟨y2, mo2, d2, hh2, mi2, s2⟩ := t2
    dsimp only at hy hmo hdy hho hmi hse
    subst hy
    subst hmo
    subst hdy
    subst hho
    subst hmi
    subst hse
    rfl
  · intro c hc
    simp only [sanitize, List.mem_map] at hc
    obtain ⟨c0, _, hrep⟩ := hc
    by_cases hf : c0 ∈ forbiddenChars
    · rw [if_pos hf] at hrep
      rw [← hrep]
      decide
    · rw [if_neg hf] at hrep
      rw [← hrep]
      exact hf

/-- Witness for C7 at two timestamps one second apart. -/
theorem filename_uniqueness_witness :
    (DateTime.Valid ⟨2026, 1, 1, 10, 0, 0⟩
      ∧ DateTime.Valid ⟨2026, 1, 1, 10, 0, 1⟩
      ∧ (⟨2026, 1, 1, 10, 0, 0⟩ : DateTime) ≠ ⟨2026, 1, 1, 10, 0, 1⟩)
    ∧ (generate_filename "Radio A" ⟨2026, 1, 1, 10, 0, 0⟩
        ≠ generate_filename "Radio A" ⟨2026, 1, 1, 10, 0, 1⟩
       ∧ ∀ c ∈ (sanitize "Radio A").data, c ∉ forbiddenChars) :=
  ⟨⟨by decide, by decide, by decide⟩,
    filename_uniqueness "Radio A" ⟨2026, 1, 1, 10, 0, 0⟩ ⟨2026, 1, 1, 10, 0, 1⟩
      (by decide) (by decide) (by decide)⟩

/-- C10: in the degenerate configuration `endHour = startHour` (nonzero),
the window test is false at every hour: the window is always closed, never
always open. -/
theorem degenerate_window_always_closed (s hour : Nat) (hs : s ≠ 0) :
    within_recording_window s s hour = false := by
  simp only [within_recording_window, if_neg hs]
  simp

/-- Witness for C10 at `startHour = endHour = 7`. -/
theorem degenerate_window_always_closed_witness :
    (7 : Nat) ≠ 0 ∧ within_recording_window 7 7 12 = false :=
  ⟨by decide, degenerate_window_always_closed 7 12 (by decide)⟩

end Live
